import Mathlib

/-!
# Verification of the capture extension's identity registry and navigation coordinator

Shallow embedding of the DOM-capture browser extension:
* `src/modules/id-manager.js` — page/element ID generation and robust selector generation,
* `src/modules/id-registry-manager.js` — per-platform registry storage (read/save/export/import),
* the background coordinator (`background.js` lines 1-133) — navigation suspend/resume messages,
* the content-script capture orchestrator (`background.js` lines 661-1178) —
  `capturePage` / `captureElement`,
* the popup's `pendingNavigation` banner timeout (`popup.js`).

JavaScript strings are Lean `String`s; JS objects used as string maps are association
lists with last-write-replace semantics; `chrome.storage.local` is an explicit record.
JS truthiness on strings (`""` is falsy) and on optional values (`null`/`undefined`
falsy) is modelled explicitly where the source relies on it.
-/

namespace CaptureExt

/-! ## JS string primitives used by the source -/

/-- ASCII lower-casing of one character, as JS `toLowerCase` acts on the
ASCII range used by this code base. -/
def charToLower (c : Char) : Char :=
  if 65 ≤ c.toNat ∧ c.toNat ≤ 90 then Char.ofNat (c.toNat + 32) else c

/-- JS `String.prototype.toLowerCase` restricted to ASCII. -/
def toLowerStr (s : String) : String :=
  ⟨s.data.map charToLower⟩

/-- Is the character matched by the regex class `[a-z0-9]` with the `i` flag? -/
def isAlnumChar (c : Char) : Bool :=
  (97 ≤ c.toNat && c.toNat ≤ 122) || (65 ≤ c.toNat && c.toNat ≤ 90)
    || (48 ≤ c.toNat && c.toNat ≤ 57)

/-- JS `s.replace(/[^a-z0-9]/gi, '_')`. -/
def replaceNonAlnum (s : String) : String :=
  ⟨s.data.map (fun c => if isAlnumChar c then c else '_')⟩

/-- Is the character matched by the regex class `[a-f0-9]` (no `i` flag)? -/
def isHexChar (c : Char) : Bool :=
  (97 ≤ c.toNat && c.toNat ≤ 102) || (48 ≤ c.toNat && c.toNat ≤ 57)

/-- List-level starts-with test (JS `String.prototype.startsWith` on char lists). -/
def listStartsWith : List Char → List Char → Bool
  | [], _ => true
  | _ :: _, [] => false
  | a :: p, b :: t => a == b && listStartsWith p t

/-- JS `String.prototype.startsWith`. -/
def strStartsWith (pat s : String) : Bool :=
  listStartsWith pat.data s.data

/-- List-level substring containment. -/
def listContains (pat : List Char) : List Char → Bool
  | [] => pat.isEmpty
  | b :: t => listStartsWith pat (b :: t) || listContains pat t

/-- JS `String.prototype.includes`. -/
def strContains (pat s : String) : Bool :=
  listContains pat.data s.data

/-- JS `s.split(c)` for a single-character separator, on char lists. -/
def splitOnChar (c : Char) : List Char → List (List Char)
  | [] => [[]]
  | a :: t =>
    let r := splitOnChar c t
    if a == c then [] :: r
    else
      match r with
      | h :: t2 => (a :: h) :: t2
      | [] => [[a]]

/-- JS whitespace test for `\s` (the characters relevant to this code base). -/
def isWsChar (c : Char) : Bool :=
  c == ' ' || c == '\t' || c == '\n' || c == '\r'

/-- JS `String.prototype.trim`. -/
def strTrim (s : String) : String :=
  ⟨((s.data.dropWhile isWsChar).reverse.dropWhile isWsChar).reverse⟩

/-- JS `s.substring(0, n)`. -/
def strTake (n : Nat) (s : String) : String :=
  ⟨s.data.take n⟩

/-- JS `s.replace(/\s+/g, '_')`: collapse each maximal whitespace run to one `_`. -/
def collapseWsList : List Char → Bool → List Char
  | [], _ => []
  | c :: t, inRun =>
    if isWsChar c then
      if inRun then collapseWsList t true else '_' :: collapseWsList t true
    else c :: collapseWsList t false

/-- JS `s.replace(/\s+/g, '_')`. -/
def collapseWs (s : String) : String :=
  ⟨collapseWsList s.data false⟩

/-- JS `Array.prototype.join(sep)`. -/
def joinSep (sep : String) : List String → String
  | [] => ""
  | [x] => x
  | x :: y :: t => x ++ sep ++ joinSep sep (y :: t)

/-- Concatenation of a list of strings (JS `array.join('')`). -/
def concatAll : List String → String
  | [] => ""
  | s :: t => s ++ concatAll t

/-! ## JS object-as-map primitives -/

/-- Lookup in a JS object used as a string-keyed map (`obj[k]`, `undefined` when absent). -/
def alGet {α : Type} (m : List (String × α)) (k : String) : Option α :=
  match m with
  | [] => none
  | (k2, v) :: t => if k2 == k then some v else alGet t k

/-- JS property assignment `obj[k] = v`: replace in place, or append a new key. -/
def alSet {α : Type} (m : List (String × α)) (k : String) (v : α) : List (String × α) :=
  match m with
  | [] => [(k, v)]
  | (k2, v2) :: t => if k2 == k then (k, v) :: t else (k2, v2) :: alSet t k v

/-- JS truthiness of `obj[k]` when values are strings: present and non-empty. -/
def alGetTruthy (m : List (String × String)) (k : String) : Option String :=
  match alGet m k with
  | some v => if v == "" then none else some v
  | none => none

/-- JS truthiness of a nullable string variable. -/
def jsStrTruthy : Option String → Bool
  | some s => !(s == "")
  | none => false

/-! ## DOM model

A captured DOM element is modelled by the attributes and properties the source
reads, plus its upward chain of ancestors (with the sibling information needed
for `:nth-of-type`). -/

/-- The per-node data read by `id-manager.js`: tag name (upper case, as
`Element.tagName` reports it), the `id` attribute (`""` when absent, matching
the `element.id` IDL property), the raw `class` attribute string and the parsed
class list, the full attribute list (for the `data-*` scan and
`getAttribute`/`hasAttribute`), the text content, and the `type`/`role`
IDL properties. -/
structure DomNode where
  tagName : String
  idAttr : String
  classNameStr : String
  classList : List String
  attrs : List (String × String)
  textContent : String
  typeProp : String
  roleProp : String
  deriving DecidableEq, Repr

/-- A DOM element together with its ancestor chain. `child n tags i p` is a
node `n` whose `parentElement` has chain `p`, where `tags` lists the tag names
of all the parent's children in order and `i` is the index of `n` among them;
`root n` has no `parentElement`. -/
inductive UpChain where
  | root (n : DomNode)
  | child (n : DomNode) (parentChildrenTags : List String) (idx : Nat) (p : UpChain)
  deriving DecidableEq, Repr

/-- The element a chain stands for. -/
def UpChain.node : UpChain → DomNode
  | .root n => n
  | .child n _ _ _ => n

/-- `element.getAttribute(name)`: the attribute value, `null` when absent. -/
def getAttr (n : DomNode) (name : String) : Option String :=
  alGet n.attrs name

/-- `element.hasAttribute(name)`. -/
def hasAttr (n : DomNode) (name : String) : Bool :=
  (alGet n.attrs name).isSome

/-- JS truthiness of `element.getAttribute(name)`: present and non-empty. -/
def getAttrTruthy (n : DomNode) (name : String) : Option String :=
  match alGet n.attrs name with
  | some v => if v == "" then none else some v
  | none => none

/-! ## SelectorGenerator (`id-manager.js`, `generateRobustSelector` and
`getElementType`) -/

/-- `getElementType` from `id-manager.js` (also duplicated in the content
script): semantic role of an element. -/
def getElementType (n : DomNode) : String :=
  if n.tagName == "BUTTON" || (n.tagName == "INPUT" && n.typeProp == "button")
      || n.roleProp == "button" then
    "button"
  else if n.tagName == "A" then "link"
  else if n.tagName == "INPUT" then
    (if n.typeProp == "" then "input" else n.typeProp)
  else if n.tagName == "SELECT" then "select"
  else toLowerStr n.tagName

/-- The `data-*` attributes kept by step 2 of `generateRobustSelector`:
name starts with `data-` and contains none of `react`, `vue`, `ng-`. -/
def qualifyingDataAttrs (n : DomNode) : List (String × String) :=
  n.attrs.filter (fun a =>
    strStartsWith "data-" a.1 && !(strContains "react" a.1)
      && !(strContains "vue" a.1) && !(strContains "ng-" a.1))

/-- The class filter of step 3 of `generateRobustSelector`: `true` when the
class survives (not transient-state vocabulary, not a likely generated name,
longer than 2 characters). -/
def stableClass (cls : String) : Bool :=
  !(strContains "active" cls) && !(strContains "selected" cls)
    && !(strContains "open" cls) && !(strContains "hover" cls)
    && !(strContains "dynamic" cls)
    && !((cls.data.length ≥ 4 && (cls.data.take 4).all isHexChar)
          || strStartsWith "ng-" cls || strStartsWith "react-" cls
          || strStartsWith "vue-" cls)
    && cls.data.length > 2

/-- One level of the fallback path selector: lowercased tag, then the first of
`aria-label` / `name` / `type` present (the first two by truthy `getAttribute`,
the last by `hasAttribute`), then `:nth-of-type(i)` when the parent has more
than one child with this tag. -/
def levelSelector (n : DomNode) (sib : Option (List String × Nat)) : String :=
  let base := toLowerStr n.tagName
  let withAttr :=
    match getAttrTruthy n "aria-label" with
    | some v => base ++ "[aria-label=\"" ++ v ++ "\"]"
    | none =>
      match getAttrTruthy n "name" with
      | some v => base ++ "[name=\"" ++ v ++ "\"]"
      | none =>
        if hasAttr n "type" then
          base ++ "[type=\"" ++ (getAttr n "type").getD "" ++ "\"]"
        else base
  match sib with
  | none => withAttr
  | some (tags, idx) =>
    if (tags.filter (fun t => t == n.tagName)).length > 1 then
      withAttr ++ ":nth-of-type("
        ++ toString (((tags.take idx).filter (fun t => t == n.tagName)).length + 1)
        ++ ")"
    else withAttr

/-- The `while (currentElement && depth < 3)` loop of `generateRobustSelector`,
collecting one selector per level, leaf first (each iteration `unshift`s, so
the final path is this list reversed). -/
def pathLevels : UpChain → Nat → List String
  | _, 0 => []
  | .root n, _ + 1 => [levelSelector n none]
  | .child n tags i p, d + 1 => levelSelector n (some (tags, i)) :: pathLevels p d

/-- Step 4 of `generateRobustSelector`: the ancestor-path selector, root to
leaf, joined by `" > "`. -/
def pathSelector (e : UpChain) : String :=
  joinSep " > " (pathLevels e 3).reverse

/-- `generateRobustSelector` from `id-manager.js`. -/
def generateRobustSelector (e : UpChain) : String :=
  let n := e.node
  if !(n.idAttr == "") then
    "#" ++ n.idAttr
  else
    let dataSel := (qualifyingDataAttrs n).map
      (fun a => "[" ++ a.1 ++ "=\"" ++ a.2 ++ "\"]")
    if dataSel.length > 0 then
      toLowerStr n.tagName ++ concatAll dataSel
    else if !(n.classNameStr == "") then
      let stable := (n.classList.filter stableClass).map (fun c => "." ++ c)
      if stable.length > 0 then
        toLowerStr n.tagName ++ concatAll stable
      else pathSelector e
    else pathSelector e

/-! ## IdentityRegistry (`id-registry-manager.js` + `id-manager.js`) -/

/-- The `counters` object of a platform registry. -/
structure Counters where
  page : Nat
  element : Nat
  deriving DecidableEq, Repr

/-- A `PlatformRegistry`: fingerprint-to-ID maps for pages and elements plus
the two counters. -/
structure Registry where
  pages : List (String × String)
  elements : List (String × String)
  counters : Counters
  deriving DecidableEq, Repr

/-- The fresh empty registry `getIdRegistry` substitutes when a platform has no
stored registry: empty maps, counters seeded at 1000. -/
def freshRegistry : Registry :=
  { pages := [], elements := [], counters := { page := 1000, element := 1000 } }

/-- The full `idRegistry` storage value: platform key to registry. -/
abbrev RegMap := List (String × Registry)

/-- Outcome of a `chrome.storage.local.get` read: the key's value (`ok none`
when the key is absent) or a thrown error (`err`, the corrupt-store case). -/
inductive ReadResult (α : Type) where
  | ok : Option α → ReadResult α
  | err : ReadResult α
  deriving DecidableEq, Repr

/-- `getIdRegistry` from `id-registry-manager.js`: look the platform up in the
stored `idRegistry`; when the store read throws, or the key is absent, or the
platform has no entry, return a fresh empty registry. Never fails. -/
def getIdRegistry (read : ReadResult RegMap) (platformKey : String) : Registry :=
  match read with
  | .err => freshRegistry
  | .ok none => freshRegistry
  | .ok (some m) =>
    match alGet m platformKey with
    | none => freshRegistry
    | some r => r

/-- The timestamp fallback ID of `generateUniquePageId` (taken when its
registry variable is falsy): sanitized pattern plus `Date.now()`. -/
def fallbackPageId (urlPattern : String) (now : Nat) : String :=
  "page_" ++ toLowerStr (replaceNonAlnum urlPattern) ++ "_" ++ toString now

/-- The timestamp fallback ID of `generateUniqueElementId`. -/
def fallbackElemId (e : UpChain) (now : Nat) : String :=
  "elem_" ++ getElementType e.node ++ "_" ++ toString now

/-- The readable page ID built by `generateUniquePageId` on a registry miss:
`page_` + sanitized last path segment (20 chars max) + `_` + current counter. -/
def newPageUid (reg : Registry) (urlPattern : String) : String :=
  let counter := reg.counters.page
  let segments := (splitOnChar '/' urlPattern.data).filter (fun l => !l.isEmpty)
  let lastSegment : String :=
    match segments.getLast? with
    | some l => ⟨l⟩
    | none => "home"
  let cleanSegment := strTake 20 (toLowerStr (replaceNonAlnum lastSegment))
  "page_" ++ cleanSegment ++ "_" ++ toString counter

/-- `generateUniquePageId` from `id-manager.js`, parameterized by the value of
its `idRegistry` variable (the `getIdRegistry` result; `none` models a falsy
value, taken to the timestamp fallback). Returns the ID and, when the registry
was mutated, the registry passed to `saveIdRegistry`. -/
def genPageIdCore (o : Option Registry) (urlPattern : String) (now : Nat) :
    String × Option Registry :=
  match o with
  | none => (fallbackPageId urlPattern now, none)
  | some reg =>
    match alGetTruthy reg.pages urlPattern with
    | some v => (v, none)
    | none =>
      let uniqueId := newPageUid reg urlPattern
      (uniqueId,
        some { reg with
          pages := alSet reg.pages urlPattern uniqueId,
          counters := { reg.counters with page := reg.counters.page + 1 } })

/-- The element fingerprint of `generateUniqueElementId`:
`pageId + "|" + robust selector`. -/
def elemFingerprint (e : UpChain) (pageId : String) : String :=
  pageId ++ "|" ++ generateRobustSelector e

/-- The readable element ID built by `generateUniqueElementId` on a registry
miss: lowercased `elem_` + type + `_` + (id, else joined classes, else text
snippet, else `unknown`) + `_` + current counter. -/
def newElemUid (reg : Registry) (e : UpChain) : String :=
  let counter := reg.counters.element
  let type := getElementType e.node
  let idA := e.node.idAttr
  let className := joinSep "_" e.node.classList
  let text := collapseWs (strTake 15 (strTrim e.node.textContent))
  let stem :=
    if !(idA == "") then idA
    else if !(className == "") then className
    else if !(text == "") then text
    else "unknown"
  toLowerStr ("elem_" ++ type ++ "_" ++ stem ++ "_" ++ toString counter)

/-- `generateUniqueElementId` from `id-manager.js`, parameterized like
`genPageIdCore`. -/
def genElemIdCore (o : Option Registry) (e : UpChain) (pageId : String) (now : Nat) :
    String × Option Registry :=
  match o with
  | none => (fallbackElemId e now, none)
  | some reg =>
    let fingerprint := elemFingerprint e pageId
    match alGetTruthy reg.elements fingerprint with
    | some v => (v, none)
    | none =>
      let uniqueId := newElemUid reg e
      (uniqueId,
        some { reg with
          elements := alSet reg.elements fingerprint uniqueId,
          counters := { reg.counters with element := reg.counters.element + 1 } })

/-- Registry-level view of one `generateUniquePageId` call: the ID and the
effective registry afterwards (unchanged on a fingerprint hit). -/
def pageIdStep (reg : Registry) (urlPattern : String) : String × Registry :=
  match genPageIdCore (some reg) urlPattern 0 with
  | (i, none) => (i, reg)
  | (i, some r) => (i, r)

/-- Registry-level view of one `generateUniqueElementId` call. -/
def elemIdStep (reg : Registry) (e : UpChain) (pageId : String) : String × Registry :=
  match genElemIdCore (some reg) e pageId 0 with
  | (i, none) => (i, reg)
  | (i, some r) => (i, r)

/-- A lookup-or-create operation against one platform registry. -/
inductive RegOp where
  | page (urlPattern : String)
  | elem (e : UpChain) (pageId : String)

/-- Effect of one lookup-or-create operation on the registry. -/
def applyRegOp (reg : Registry) : RegOp → Registry
  | .page p => (pageIdStep reg p).2
  | .elem e pid => (elemIdStep reg e pid).2

/-- Effect of a sequence of lookup-or-create operations. -/
def applyRegOps (reg : Registry) (ops : List RegOp) : Registry :=
  ops.foldl applyRegOp reg

/-! ## Durable storage and the captured records -/

/-- One `{node, action}` entry of a record's `from` list. -/
structure Edge where
  node : String
  action : String
  deriving DecidableEq, Repr

/-- A `PageRecord` as built by the content script's `capturePage`.
The JSON field `from` is spelled `fromEdges` (`from` is a Lean keyword). -/
structure PageRecord where
  page_id : String
  url_pattern : String
  framework : String
  ui_version : String
  description : String
  KPI : Option String
  updated_at : String
  fromEdges : Option (List Edge)
  deriving DecidableEq, Repr

/-- An `ElementRecord` as built by the content script's `captureElement`.
The JSON field `from` is spelled `fromEdges`. -/
structure ElementRecord where
  element_id : String
  page_id : String
  type : String
  dom_selector : String
  description : String
  version : String
  KPI : Option String
  updated_at : String
  status : String
  fromEdges : Option (List Edge)
  deriving DecidableEq, Repr

/-- The `chrome.storage.local` keys this system uses. `none` models an
absent key (`undefined` on read). -/
structure LocalStorage where
  captureMode : Bool
  elementData : List ElementRecord
  pageData : List PageRecord
  lastElementId : Option String
  pendingNavigation : Bool
  lastNavigationElementId : Option String
  idRegistry : Option RegMap
  platformKey : Option String
  deriving DecidableEq, Repr

/-- `getPlatformKey` from `id-registry-manager.js`: the stored key, defaulted
to `"default"` when absent or falsy. -/
def getPlatformKey (st : LocalStorage) : String :=
  match st.platformKey with
  | some k => if k == "" then "default" else k
  | none => "default"

/-- `saveIdRegistry` from `id-registry-manager.js`: write the registry under
the current platform key into the (defaulted-empty) stored map. -/
def saveIdRegistry (st : LocalStorage) (reg : Registry) : LocalStorage :=
  { st with idRegistry := some (alSet (st.idRegistry.getD []) (getPlatformKey st) reg) }

/-- `generateUniquePageId` acting on storage: read the registry for the current
platform, run the core, persist the mutated registry when one was produced. -/
def generateUniquePageIdS (st : LocalStorage) (urlPattern : String) (now : Nat) :
    String × LocalStorage :=
  match genPageIdCore
      (some (getIdRegistry (ReadResult.ok st.idRegistry) (getPlatformKey st)))
      urlPattern now with
  | (i, none) => (i, st)
  | (i, some r) => (i, saveIdRegistry st r)

/-- `generateUniqueElementId` acting on storage. -/
def generateUniqueElementIdS (st : LocalStorage) (e : UpChain) (pageId : String)
    (now : Nat) : String × LocalStorage :=
  match genElemIdCore
      (some (getIdRegistry (ReadResult.ok st.idRegistry) (getPlatformKey st)))
      e pageId now with
  | (i, none) => (i, st)
  | (i, some r) => (i, saveIdRegistry st r)

/-! ## CaptureOrchestrator (content script, `background.js` lines 661-1178) -/

/-- The content script's in-memory state relevant here. -/
structure ContentState where
  captureMode : Bool
  lastCapturedElementId : Option String
  deriving DecidableEq, Repr

/-- `capturePage`: compute nothing when the URL pattern is already captured,
otherwise obtain a page ID from the registry and append a `PageRecord`.
`urlPattern` is `getUrlPattern(window.location.href)`; `title` is
`document.title`; `nowIso` is `new Date().toISOString()`. -/
def capturePage (st : LocalStorage) (urlPattern title framework nowIso : String)
    (now : Nat) : LocalStorage :=
  if st.pageData.any (fun p => p.url_pattern == urlPattern) then st
  else
    let (pageId, st1) := generateUniquePageIdS st urlPattern now
    { st1 with
      pageData := st.pageData ++ [{
        page_id := pageId,
        url_pattern := urlPattern,
        framework := framework,
        ui_version := "1.0",
        description := if title == "" then "Untitled Page" else title,
        KPI := none,
        updated_at := nowIso,
        fromEdges := none }] }

/-- `captureElement` (content script, lines 1001-1050): find the current
page's record; bail out when absent; obtain an element ID; build the
`ElementRecord` with the `from` edge from the in-memory continuity anchor;
append it and advance the anchor (storage `lastElementId` and in-memory).
Returns the new content state, the new storage, and the appended record
(`none` on the missing-page bail-out). -/
def captureElement (cs : ContentState) (st : LocalStorage) (urlPattern : String)
    (e : UpChain) (description : String) (kpi : Option String) (nowIso : String)
    (now : Nat) : ContentState × LocalStorage × Option ElementRecord :=
  match st.pageData.find? (fun p => p.url_pattern == urlPattern) with
  | none => (cs, st, none)
  | some currentPage =>
    let (elementId, st1) := generateUniqueElementIdS st e currentPage.page_id now
    let record : ElementRecord := {
      element_id := elementId,
      page_id := currentPage.page_id,
      type := getElementType e.node,
      dom_selector := generateRobustSelector e,
      description := description,
      version := "1.0",
      KPI := kpi,
      updated_at := nowIso,
      status := "active",
      fromEdges :=
        if jsStrTruthy cs.lastCapturedElementId then
          some [{ node := cs.lastCapturedElementId.getD "", action := "click" }]
        else none }
    ({ cs with lastCapturedElementId := some elementId },
     { st1 with
        elementData := st.elementData ++ [record],
        lastElementId := some elementId },
     some record)

/-! ## NavigationCoordinator (`background.js` lines 1-133) -/

/-- The background coordinator's in-memory (module-level) state. -/
structure BgState where
  temporaryCaptureDisabled : Bool
  shouldResumeCapture : Bool
  lastElementIdBeforeNavigation : Option String
  deriving DecidableEq, Repr

/-- The runtime messages handled by the background coordinator that this
development needs. -/
inductive Message where
  | temporaryDisableForNavigation (lastElementId : Option String)
  | captureModeChanged (isEnabled : Bool)
  deriving DecidableEq, Repr

/-- The background `chrome.runtime.onMessage` handler (lines 82-126, the two
actions modelled): `temporaryDisableForNavigation` sets both in-memory latches
and persists `pendingNavigation := true` and the carried element ID;
`captureModeChanged` with `isEnabled = false` clears the in-memory latches.
Neither touches the durable `captureMode` key. -/
def bgOnMessage (bg : BgState) (st : LocalStorage) : Message → BgState × LocalStorage
  | .temporaryDisableForNavigation le =>
    ({ temporaryCaptureDisabled := true,
       shouldResumeCapture := true,
       lastElementIdBeforeNavigation := le },
     { st with pendingNavigation := true, lastNavigationElementId := le })
  | .captureModeChanged isEnabled =>
    (if !isEnabled then
       { bg with shouldResumeCapture := false, temporaryCaptureDisabled := false }
     else bg,
     st)

/-- The content script's `disableCaptureMode(temporary)` (lines 750-787),
composed with the background handler for the message it sends: a permanent
disable writes `captureMode := false` and notifies `captureModeChanged`; a
temporary disable leaves durable `captureMode` untouched and sends
`temporaryDisableForNavigation` carrying the in-memory continuity anchor. -/
def disableCaptureMode (temporary : Bool) (cs : ContentState) (st : LocalStorage)
    (bg : BgState) : ContentState × LocalStorage × BgState :=
  let cs1 := { cs with captureMode := false }
  if !temporary then
    let st1 := { st with captureMode := false }
    let (bg1, st2) := bgOnMessage bg st1 (.captureModeChanged false)
    (cs1, st2, bg1)
  else
    let (bg1, st1) := bgOnMessage bg st (.temporaryDisableForNavigation cs.lastCapturedElementId)
    (cs1, st1, bg1)

/-- Capturing an element with the navigation-trigger flag set: the popup's
confirm handler runs `captureElement` and then `processNavigationTrigger`,
which calls `disableCaptureMode(true)`. -/
def captureWithNavTrigger (cs : ContentState) (st : LocalStorage) (bg : BgState)
    (urlPattern : String) (e : UpChain) (description : String) (kpi : Option String)
    (nowIso : String) (now : Nat) : ContentState × LocalStorage × BgState :=
  let (cs1, st1, _) := captureElement cs st urlPattern e description kpi nowIso now
  disableCaptureMode true cs1 st1 bg

/-- A cross-context send attempted by the background `tabs.onUpdated`
handler, with the delay (ms) at which it fires. -/
inductive SendAttempt where
  | checkPendingNavigation (delayMs : Nat)
  | enableCapture (delayMs : Nat)
  deriving DecidableEq, Repr

/-- The background `chrome.tabs.onUpdated` handler (lines 40-79) at a
load-complete event with a truthy `tab.url`. With the resume latch set it
attempts `checkPendingNavigation` immediately and — when that delivery fails —
once more after 1000 ms, then clears the in-memory latches; otherwise it reads
durable `captureMode` and, when set, attempts `enableCapture`. The handler
performs no storage write: the returned storage is the input storage, and the
only effects are the listed send attempts. `firstDeliveryFails` tells whether
the immediate send's promise rejected (content script not ready). -/
def tabsOnUpdatedComplete (bg : BgState) (st : LocalStorage)
    (firstDeliveryFails : Bool) : BgState × LocalStorage × List SendAttempt :=
  if bg.shouldResumeCapture then
    ({ bg with shouldResumeCapture := false, temporaryCaptureDisabled := false },
     st,
     if firstDeliveryFails then
       [.checkPendingNavigation 0, .checkPendingNavigation 1000]
     else
       [.checkPendingNavigation 0])
  else
    (bg, st,
     if st.captureMode then [.enableCapture 0] else [])

/-- Storage evolution after a load-complete event when no send is successfully
delivered (the claim's premise): only the handler itself ran, so the storage at
every later time `t` (ms) is the handler's output storage. -/
def storageAfterLoadComplete (bg : BgState) (st : LocalStorage) (t : Nat) :
    LocalStorage :=
  let (_, st1, _) := tabsOnUpdatedComplete bg st true
  let _ := t
  st1

/-! ## Popup (`popup.js`) -/

/-- A storage write scheduled by the popup's `DOMContentLoaded` handler. -/
structure ScheduledClear where
  delayMs : Nat
  pendingNavigationValue : Bool
  deriving DecidableEq, Repr

/-- The `pendingNavigation` part of the popup's `DOMContentLoaded` handler
(`popup.js` lines 37-47): when the persisted flag is set, schedule — 5000 ms
after the popup opened — a write of `pendingNavigation := false`. -/
def popupPendingNavSchedule (st : LocalStorage) : List ScheduledClear :=
  if st.pendingNavigation then [{ delayMs := 5000, pendingNavigationValue := false }] else []

/-- Firing one scheduled popup write. -/
def applyScheduledClear (st : LocalStorage) (w : ScheduledClear) : LocalStorage :=
  { st with pendingNavigation := w.pendingNavigationValue }

/-! ## Export / import (`id-registry-manager.js` lines 292-324) -/

/-- A JS value as passed to `importIdRegistries`; objects are restricted to
the registry-map shape the function stores. -/
inductive JsVal where
  | jsNull
  | jsUndefined
  | jsBool (b : Bool)
  | jsNum (n : Int)
  | jsStr (s : String)
  | jsObj (m : RegMap)
  deriving DecidableEq, Repr

/-- JS truthiness of a `JsVal`. -/
def jsTruthy : JsVal → Bool
  | .jsNull => false
  | .jsUndefined => false
  | .jsBool b => b
  | .jsNum n => !(n == 0)
  | .jsStr s => !(s == "")
  | .jsObj _ => true

/-- JS `typeof`. -/
def jsTypeof : JsVal → String
  | .jsNull => "object"
  | .jsUndefined => "undefined"
  | .jsBool _ => "boolean"
  | .jsNum _ => "number"
  | .jsStr _ => "string"
  | .jsObj _ => "object"

/-- `exportAllIdRegistries`: the stored `idRegistry` map, defaulted to empty. -/
def exportAllIdRegistries (st : LocalStorage) : RegMap :=
  st.idRegistry.getD []

/-- `importIdRegistries`: reject falsy or non-object data (returning `false`
with no write); otherwise wholesale-overwrite the stored `idRegistry` and
return `true`. -/
def importIdRegistries (data : JsVal) (st : LocalStorage) : Bool × LocalStorage :=
  if !(jsTruthy data) || !(jsTypeof data == "object") then (false, st)
  else
    match data with
    | .jsObj m => (true, { st with idRegistry := some m })
    | _ => (true, st)

/-! ## The installed initial state and the dashboard scenario -/

/-- The storage initialized by the background `onInstalled` handler
(`background.js` lines 10-37). -/
def installedStorage : LocalStorage :=
  { captureMode := false,
    elementData := [],
    pageData := [],
    lastElementId := none,
    pendingNavigation := false,
    lastNavigationElementId := none,
    idRegistry := some [("default", freshRegistry)],
    platformKey := none }

/-- The content script's state on a fresh page with no prior captures. -/
def initialContentState : ContentState :=
  { captureMode := true, lastCapturedElementId := none }

/-- The `#settings-button` element of the scenario: a `BUTTON` with that id. -/
def settingsButton : UpChain :=
  .root { tagName := "BUTTON", idAttr := "settings-button", classNameStr := "",
          classList := [], attrs := [("id", "settings-button")],
          textContent := "Settings", typeProp := "submit", roleProp := "" }

/-- The `#add-button` element of the scenario: a `BUTTON` with that id. -/
def addButton : UpChain :=
  .root { tagName := "BUTTON", idAttr := "add-button", classNameStr := "",
          classList := [], attrs := [("id", "add-button")],
          textContent := "Add user", typeProp := "submit", roleProp := "" }

/-- Storage after capturing page `/dashboard` from the installed state. -/
def scenarioSt1 : LocalStorage :=
  capturePage installedStorage "/dashboard" "Dashboard" "Unknown" "t1" 1

/-- State after then capturing `#settings-button` with description
"go to settings". -/
def scenarioStep2 : ContentState × LocalStorage × Option ElementRecord :=
  captureElement initialContentState scenarioSt1 "/dashboard" settingsButton
    "go to settings" none "t2" 2

/-- State after then capturing `#add-button` with description "add user". -/
def scenarioStep3 : ContentState × LocalStorage × Option ElementRecord :=
  captureElement scenarioStep2.1 scenarioStep2.2.1 "/dashboard" addButton
    "add user" none "t3" 3

/-- The page record the dashboard scenario produces. -/
def dashboardPage : PageRecord :=
  { page_id := "page_dashboard_1000",
    url_pattern := "/dashboard",
    framework := "Unknown",
    ui_version := "1.0",
    description := "Dashboard",
    KPI := none,
    updated_at := "t1",
    fromEdges := none }

/-! ## Further concrete states and elements used in the theorems below -/

/-- `generateUniquePageId` composed with `getIdRegistry` on an explicit
storage-read outcome. -/
def generateUniquePageIdRead (read : ReadResult RegMap) (platformKey : String)
    (urlPattern : String) (now : Nat) : String × Option Registry :=
  genPageIdCore (some (getIdRegistry read platformKey)) urlPattern now

/-- `generateUniqueElementId` composed with `getIdRegistry` on an explicit
storage-read outcome. -/
def generateUniqueElementIdRead (read : ReadResult RegMap) (platformKey : String)
    (e : UpChain) (pageId : String) (now : Nat) : String × Option Registry :=
  genElemIdCore (some (getIdRegistry read platformKey)) e pageId now

/-- A registry that already maps the page fingerprint `/x`
(counter already advanced past it). -/
def prePopulatedReg : Registry :=
  { pages := [("/x", "page_x_1000")], elements := [],
    counters := { page := 1001, element := 1000 } }

/-- Background state suspended for navigation (both latches set). -/
def suspendedBg : BgState :=
  { temporaryCaptureDisabled := true, shouldResumeCapture := true,
    lastElementIdBeforeNavigation := some "elem_button_settings-button_1000" }

/-- Storage as left by a navigation-trigger capture: capture mode on,
`pendingNavigation` persisted. -/
def suspendedSt : LocalStorage :=
  { installedStorage with
      captureMode := true,
      pendingNavigation := true,
      lastNavigationElementId := some "elem_button_settings-button_1000" }

/-- A quiescent background state (no pending navigation latches). -/
def idleBg : BgState :=
  { temporaryCaptureDisabled := false, shouldResumeCapture := false,
    lastElementIdBeforeNavigation := none }

/-- An element with a non-empty id attribute and classes. -/
def fooElem : UpChain :=
  .root { tagName := "DIV", idAttr := "foo", classNameStr := "btn primary",
          classList := ["btn", "primary"],
          attrs := [("id", "foo"), ("class", "btn primary")],
          textContent := "", typeProp := "", roleProp := "" }

/-- An element with no id, no data attributes, and only transient class
names, sitting among two same-tag siblings under a plain `DIV`. -/
def transientElem : UpChain :=
  .child { tagName := "SPAN", idAttr := "", classNameStr := "active open",
           classList := ["active", "open"], attrs := [("class", "active open")],
           textContent := "x", typeProp := "", roleProp := "" }
    ["SPAN", "SPAN"] 0
    (.root { tagName := "DIV", idAttr := "", classNameStr := "",
             classList := [], attrs := [], textContent := "x",
             typeProp := "", roleProp := "" })

/-! ## Helper lemmas -/

theorem appendPageNe (x : String) : ("page_" ++ x) ≠ "" := by
  intro h
  have h2 := congrArg String.data h
  rw [String.data_append] at h2
  have h3 : "page_".data = ['p', 'a', 'g', 'e', '_'] := rfl
  rw [h3] at h2
  simp at h2

theorem toLowerNe (x : String) : (toLowerStr ("elem_" ++ x)) ≠ "" := by
  intro h
  have h2 := congrArg String.data h
  have h3 : (toLowerStr ("elem_" ++ x)).data = ("elem_" ++ x).data.map charToLower := rfl
  rw [h3, String.data_append] at h2
  have h4 : "elem_".data = ['e', 'l', 'e', 'm', '_'] := rfl
  rw [h4] at h2
  simp at h2

theorem newPageUid_ne (reg : Registry) (p : String) : newPageUid reg p ≠ "" :=
  appendPageNe _

theorem newElemUid_ne (reg : Registry) (e : UpChain) : newElemUid reg e ≠ "" :=
  toLowerNe _

theorem alGet_alSet_self {α : Type} (m : List (String × α)) (k : String) (v : α) :
    alGet (alSet m k v) k = some v := by
  induction m with
  | nil => simp [alSet, alGet]
  | cons h t ih =>
    obtain ⟨k2, v2⟩ := h
    by_cases hk : k2 = k
    · subst hk; simp [alSet, alGet]
    · simp [alSet, alGet, hk, ih]

theorem alGet_alSet_ne {α : Type} (m : List (String × α)) (k q : String) (v : α)
    (h : q ≠ k) : alGet (alSet m k v) q = alGet m q := by
  induction m with
  | nil => simp [alSet, alGet, Ne.symm h]
  | cons hd t ih =>
    obtain ⟨k2, v2⟩ := hd
    by_cases hk : k2 = k
    · subst hk; simp [alSet, alGet, Ne.symm h]
    · simp [alSet, alGet, hk, ih]

theorem alGetTruthy_alSet_self (m : List (String × String)) (k v : String)
    (hv : v ≠ "") : alGetTruthy (alSet m k v) k = some v := by
  simp [alGetTruthy, alGet_alSet_self, hv]

theorem alGetTruthy_alSet_ne (m : List (String × String)) (k q v : String)
    (h : q ≠ k) : alGetTruthy (alSet m k v) q = alGetTruthy m q := by
  simp [alGetTruthy, alGet_alSet_ne m k q v h]

/-- A `generateUniquePageId` call whose fingerprint is (truthily) registered
returns the stored ID and leaves the registry unchanged. -/
theorem pageIdStep_hit (reg : Registry) (p v : String)
    (h : alGetTruthy reg.pages p = some v) : pageIdStep reg p = (v, reg) := by
  simp [pageIdStep, genPageIdCore, h]

/-- A `generateUniquePageId` call on an unregistered fingerprint stores a new
ID and advances the page counter by one. -/
theorem pageIdStep_miss (reg : Registry) (p : String)
    (h : alGetTruthy reg.pages p = none) :
    pageIdStep reg p =
      (newPageUid reg p,
       { reg with pages := alSet reg.pages p (newPageUid reg p),
                  counters := { reg.counters with page := reg.counters.page + 1 } }) := by
  simp only [pageIdStep, genPageIdCore, h]

/-- Element analogue of `pageIdStep_hit`. -/
theorem elemIdStep_hit (reg : Registry) (e : UpChain) (pid v : String)
    (h : alGetTruthy reg.elements (elemFingerprint e pid) = some v) :
    elemIdStep reg e pid = (v, reg) := by
  simp [elemIdStep, genElemIdCore, h]

/-- Element analogue of `pageIdStep_miss`. -/
theorem elemIdStep_miss (reg : Registry) (e : UpChain) (pid : String)
    (h : alGetTruthy reg.elements (elemFingerprint e pid) = none) :
    elemIdStep reg e pid =
      (newElemUid reg e,
       { reg with
          elements := alSet reg.elements (elemFingerprint e pid) (newElemUid reg e),
          counters := { reg.counters with element := reg.counters.element + 1 } }) := by
  simp only [elemIdStep, genElemIdCore, h]

/-- A run of page ID creations over pairwise-distinct, all-unregistered
fingerprints advances the page counter by exactly the number of creations. -/
theorem pagesFold_counter (ps : List String) :
    ∀ reg : Registry, ps.Nodup → (∀ p ∈ ps, alGetTruthy reg.pages p = none) →
      (applyRegOps reg (ps.map RegOp.page)).counters.page = reg.counters.page + ps.length := by
  induction ps with
  | nil => intro reg _ _; simp [applyRegOps]
  | cons p t ih =>
    intro reg hnd habs
    have hp : alGetTruthy reg.pages p = none := habs p (by simp)
    have hstep := pageIdStep_miss reg p hp
    have hrw : applyRegOps reg ((p :: t).map RegOp.page)
        = applyRegOps (applyRegOp reg (RegOp.page p)) (t.map RegOp.page) := rfl
    rw [hrw]
    have hop : applyRegOp reg (RegOp.page p)
        = { reg with pages := alSet reg.pages p (newPageUid reg p),
                     counters := { reg.counters with page := reg.counters.page + 1 } } := by
      simp [applyRegOp, hstep]
    rw [hop]
    have hrest := ih
      { reg with pages := alSet reg.pages p (newPageUid reg p),
                 counters := { reg.counters with page := reg.counters.page + 1 } }
      (List.Nodup.of_cons hnd)
      (by
        intro q hq
        have hqp : q ≠ p := by
          intro hqe
          subst hqe
          exact (List.nodup_cons.mp hnd).1 hq
        simpa [alGetTruthy_alSet_ne reg.pages p q (newPageUid reg p) hqp]
          using habs q (by simp [hq]))
    rw [hrest]
    simp [Nat.add_assoc, Nat.add_comm 1 _]

/-- Element analogue of `pagesFold_counter`, over distinct element
fingerprints. -/
theorem elemsFold_counter (es : List (UpChain × String)) :
    ∀ reg : Registry, (es.map fun x => elemFingerprint x.1 x.2).Nodup →
      (∀ x ∈ es, alGetTruthy reg.elements (elemFingerprint x.1 x.2) = none) →
      (applyRegOps reg (es.map fun x => RegOp.elem x.1 x.2)).counters.element
        = reg.counters.element + es.length := by
  induction es with
  | nil => intro reg _ _; simp [applyRegOps]
  | cons x t ih =>
    intro reg hnd habs
    have hx : alGetTruthy reg.elements (elemFingerprint x.1 x.2) = none := habs x (by simp)
    have hstep := elemIdStep_miss reg x.1 x.2 hx
    have hrw : applyRegOps reg ((x :: t).map fun y => RegOp.elem y.1 y.2)
        = applyRegOps (applyRegOp reg (RegOp.elem x.1 x.2)) (t.map fun y => RegOp.elem y.1 y.2) := rfl
    rw [hrw]
    have hop : applyRegOp reg (RegOp.elem x.1 x.2)
        = { reg with
              elements := alSet reg.elements (elemFingerprint x.1 x.2) (newElemUid reg x.1),
              counters := { reg.counters with element := reg.counters.element + 1 } } := by
      simp [applyRegOp, hstep]
    rw [hop]
    have hmap := List.nodup_cons.mp hnd
    have hrest := ih
      { reg with
          elements := alSet reg.elements (elemFingerprint x.1 x.2) (newElemUid reg x.1),
          counters := { reg.counters with element := reg.counters.element + 1 } }
      hmap.2
      (by
        intro y hy
        have hyx : elemFingerprint y.1 y.2 ≠ elemFingerprint x.1 x.2 := by
          intro hcontra
          have h5 := List.mem_map_of_mem (fun z : UpChain × String => elemFingerprint z.1 z.2) hy
          have h6 : elemFingerprint x.1 x.2 ∈ t.map fun z => elemFingerprint z.1 z.2 := by
            simpa [hcontra] using h5
          exact hmap.1 (by simpa using h6)
        simpa [alGetTruthy_alSet_ne reg.elements (elemFingerprint x.1 x.2)
                (elemFingerprint y.1 y.2) (newElemUid reg x.1) hyx]
          using habs y (by simp [hy]))
    rw [hrest]
    simp [Nat.add_assoc, Nat.add_comm 1 _]

/-- One lookup-or-create operation never decreases either counter. -/
theorem applyRegOp_counters_le (reg : Registry) (op : RegOp) :
    reg.counters.page ≤ (applyRegOp reg op).counters.page
    ∧ reg.counters.element ≤ (applyRegOp reg op).counters.element := by
  cases op with
  | page p =>
    cases h : alGetTruthy reg.pages p with
    | some v => simp [applyRegOp, pageIdStep_hit reg p v h]
    | none => simp [applyRegOp, pageIdStep_miss reg p h]
  | elem e pid =>
    cases h : alGetTruthy reg.elements (elemFingerprint e pid) with
    | some v => simp [applyRegOp, elemIdStep_hit reg e pid v h]
    | none => simp [applyRegOp, elemIdStep_miss reg e pid h]

/-- A sequence of lookup-or-create operations never decreases either counter. -/
theorem applyRegOps_counters_le (ops : List RegOp) :
    ∀ reg : Registry,
      reg.counters.page ≤ (applyRegOps reg ops).counters.page
      ∧ reg.counters.element ≤ (applyRegOps reg ops).counters.element := by
  induction ops with
  | nil => intro reg; exact ⟨Nat.le_refl _, Nat.le_refl _⟩
  | cons op t ih =>
    intro reg
    have h1 := applyRegOp_counters_le reg op
    have h2 := ih (applyRegOp reg op)
    exact ⟨Nat.le_trans h1.1 h2.1, Nat.le_trans h1.2 h2.2⟩

/-- `generateUniqueElementId` touches only the `idRegistry` storage key. -/
theorem genElemIdS_frame (st : LocalStorage) (e : UpChain) (pid : String) (now : Nat) :
    ∃ r, (generateUniqueElementIdS st e pid now).2 = { st with idRegistry := r } := by
  unfold generateUniqueElementIdS
  cases hg : genElemIdCore
      (some (getIdRegistry (ReadResult.ok st.idRegistry) (getPlatformKey st))) e pid now with
  | mk i o =>
    cases o with
    | none => exact ⟨st.idRegistry, rfl⟩
    | some r => exact ⟨_, rfl⟩

/-- The fallback path builds at most `d` levels. -/
theorem pathLevels_length_le (e : UpChain) : ∀ d : Nat, (pathLevels e d).length ≤ d := by
  induction e with
  | root n =>
    intro d
    cases d with
    | zero => simp [pathLevels]
    | succ d2 => simp [pathLevels]
  | child n tags i p ih =>
    intro d
    cases d with
    | zero => simp [pathLevels]
    | succ d2 =>
      have := ih d2
      simp only [pathLevels, List.length_cons]
      omega

/-! ## Claim theorems -/

/-- C1 counterexample: the dashboard scenario does not produce the IDs the
claim names — the page ID is not `dashboard_1000`, the element ID is not
`button_settings-button_1000`, and the second capture's `from` edge does not
point at `button_settings-button_1000` (the actual IDs carry the `page_` /
`elem_` prefixes). -/
theorem C1_claimed_ids_counterexample :
    scenarioSt1.pageData.map PageRecord.page_id ≠ ["dashboard_1000"]
    ∧ Option.map ElementRecord.element_id scenarioStep2.2.2 ≠ some "button_settings-button_1000"
    ∧ Option.bind scenarioStep3.2.2 ElementRecord.fromEdges
        ≠ some [{ node := "button_settings-button_1000", action := "click" }] := by
  decide

/-- C1 (amended): from empty captured data on the default platform, capturing
page `/dashboard` then element `#settings-button` ("go to settings") yields a
PageRecord with url_pattern `/dashboard` and page_id `page_dashboard_1000`,
and an ElementRecord with page_id `page_dashboard_1000`, element_id
`elem_button_settings-button_1000` and `from = null`; the subsequent capture
of `#add-button` ("add user") yields element_id `elem_button_add-button_1001`
with `from = [{node: "elem_button_settings-button_1000", action: "click"}]`. -/
theorem C1_dashboard_scenario :
    scenarioSt1.pageData = [{
        page_id := "page_dashboard_1000",
        url_pattern := "/dashboard",
        framework := "Unknown",
        ui_version := "1.0",
        description := "Dashboard",
        KPI := none,
        updated_at := "t1",
        fromEdges := none }]
    ∧ scenarioStep2.2.2 = some {
        element_id := "elem_button_settings-button_1000",
        page_id := "page_dashboard_1000",
        type := "button",
        dom_selector := "#settings-button",
        description := "go to settings",
        version := "1.0",
        KPI := none,
        updated_at := "t2",
        status := "active",
        fromEdges := none }
    ∧ scenarioStep3.2.2 = some {
        element_id := "elem_button_add-button_1001",
        page_id := "page_dashboard_1000",
        type := "button",
        dom_selector := "#add-button",
        description := "add user",
        version := "1.0",
        KPI := none,
        updated_at := "t3",
        status := "active",
        fromEdges := some [{ node := "elem_button_settings-button_1000", action := "click" }] } := by
  decide

/-- C2 counterexample: against a registry whose `pages` map already holds the
fingerprint `/x`, two identical `generateUniquePageId` calls advance the page
counter by zero, not by exactly one as the claim states. -/
theorem C2_counter_advance_counterexample :
    ¬ ((pageIdStep (pageIdStep prePopulatedReg "/x").2 "/x").2.counters.page
        = prePopulatedReg.counters.page + 1) := by
  decide

/-- C2 (amended): for every platform registry and fingerprint, two identical
`generateUniquePageId` (resp. `generateUniqueElementId`) calls against the
same registry return the same ID both times, and the corresponding counter
advances by exactly one in total when the fingerprint was not already
(truthily) registered, and by zero when it was. -/
theorem C2_fingerprint_idempotency :
    ∀ (reg : Registry) (p : String) (e : UpChain) (pid : String),
      ((pageIdStep reg p).1 = (pageIdStep (pageIdStep reg p).2 p).1
        ∧ (pageIdStep (pageIdStep reg p).2 p).2.counters.page
            = reg.counters.page + (if (alGetTruthy reg.pages p).isSome then 0 else 1))
      ∧ ((elemIdStep reg e pid).1 = (elemIdStep (elemIdStep reg e pid).2 e pid).1
        ∧ (elemIdStep (elemIdStep reg e pid).2 e pid).2.counters.element
            = reg.counters.element
              + (if (alGetTruthy reg.elements (elemFingerprint e pid)).isSome then 0 else 1)) := by
  intro reg p e pid
  constructor
  · cases h : alGetTruthy reg.pages p with
    | some v => simp [pageIdStep_hit reg p v h, h]
    | none =>
      rw [pageIdStep_miss reg p h]
      have h2 := pageIdStep_hit
        { reg with pages := alSet reg.pages p (newPageUid reg p),
                   counters := { reg.counters with page := reg.counters.page + 1 } }
        p (newPageUid reg p)
        (alGetTruthy_alSet_self reg.pages p (newPageUid reg p) (newPageUid_ne reg p))
      rw [h2]
      simp [h]
  · cases h : alGetTruthy reg.elements (elemFingerprint e pid) with
    | some v => simp [elemIdStep_hit reg e pid v h, h]
    | none =>
      rw [elemIdStep_miss reg e pid h]
      have h2 := elemIdStep_hit
        { reg with
            elements := alSet reg.elements (elemFingerprint e pid) (newElemUid reg e),
            counters := { reg.counters with element := reg.counters.element + 1 } }
        e pid (newElemUid reg e)
        (alGetTruthy_alSet_self reg.elements (elemFingerprint e pid) (newElemUid reg e)
          (newElemUid_ne reg e))
      rw [h2]
      simp [h]

/-- C3: after N ID creations with pairwise-distinct fingerprints starting from
a fresh registry (counters seeded at 1000), `counters.page`
(resp. `counters.element`) equals `1000 + N`; and neither counter ever
decreases over any sequence of lookup-or-create operations. -/
theorem C3_counter_monotonicity :
    (∀ ps : List String, ps.Nodup →
      (applyRegOps freshRegistry (ps.map RegOp.page)).counters.page = 1000 + ps.length)
    ∧ (∀ es : List (UpChain × String), (es.map fun x => elemFingerprint x.1 x.2).Nodup →
      (applyRegOps freshRegistry (es.map fun x => RegOp.elem x.1 x.2)).counters.element
        = 1000 + es.length)
    ∧ (∀ (reg : Registry) (ops : List RegOp),
      reg.counters.page ≤ (applyRegOps reg ops).counters.page
      ∧ reg.counters.element ≤ (applyRegOps reg ops).counters.element) := by
  refine ⟨?_, ?_, ?_⟩
  · intro ps hnd
    have := pagesFold_counter ps freshRegistry hnd (by intro p _; rfl)
    simpa using this
  · intro es hnd
    have := elemsFold_counter es freshRegistry hnd (by intro x _; rfl)
    simpa using this
  · intro reg ops
    exact applyRegOps_counters_le ops reg

/-- C3 witness: three distinct page fingerprints take the page counter to
1003, two distinct element fingerprints take the element counter to 1002, and
a repeated-lookup sequence does not decrease either counter. -/
theorem C3_counter_monotonicity_witness :
    (applyRegOps freshRegistry (["/a", "/b", "/c"].map RegOp.page)).counters.page = 1003
    ∧ (applyRegOps freshRegistry
        ([(settingsButton, "p1"), (addButton, "p1")].map fun x => RegOp.elem x.1 x.2)).counters.element
        = 1002
    ∧ (freshRegistry.counters.page
        ≤ (applyRegOps freshRegistry [RegOp.page "/a", RegOp.page "/a"]).counters.page
      ∧ freshRegistry.counters.element
        ≤ (applyRegOps freshRegistry [RegOp.page "/a", RegOp.page "/a"]).counters.element) := by
  refine ⟨?_, ?_, C3_counter_monotonicity.2.2 freshRegistry [RegOp.page "/a", RegOp.page "/a"]⟩
  · have := C3_counter_monotonicity.1 ["/a", "/b", "/c"] (by decide)
    simpa using this
  · have := C3_counter_monotonicity.2.1 [(settingsButton, "p1"), (addButton, "p1")] (by decide)
    simpa using this

/-- C4 counterexample: when the persisted registry state cannot be read
(the storage read throws, or the key is absent), `generateUniquePageId` does
not return the timestamp-based fallback — it returns the counter-based ID of a
fresh registry (`page_dashboard_1000`). -/
theorem C4_timestamp_fallback_counterexample :
    (generateUniquePageIdRead ReadResult.err "default" "/dashboard" 1700000000000).1
        ≠ fallbackPageId "/dashboard" 1700000000000
    ∧ (generateUniquePageIdRead (ReadResult.ok none) "default" "/dashboard" 1700000000000).1
        ≠ fallbackPageId "/dashboard" 1700000000000
    ∧ (generateUniquePageIdRead ReadResult.err "default" "/dashboard" 1700000000000).1
        = "page_dashboard_1000" := by
  decide

/-- C4 (amended): when the persisted registry state cannot be read (corrupt
store or missing key), `getIdRegistry` substitutes a fresh empty registry, so
ID generation still succeeds and behaves exactly as on a fresh registry
(counter-based IDs); the timestamp fallback (`page_<sanitized>_<now>` /
`elem_<type>_<now>`) is returned only when the registry value handed to the
generator is itself absent, which `getIdRegistry` never produces. -/
theorem C4_registry_unreadable_degradation :
    ∀ (pk urlPattern pid : String) (e : UpChain) (now : Nat),
      generateUniquePageIdRead ReadResult.err pk urlPattern now
        = genPageIdCore (some freshRegistry) urlPattern now
      ∧ generateUniquePageIdRead (ReadResult.ok none) pk urlPattern now
        = genPageIdCore (some freshRegistry) urlPattern now
      ∧ genPageIdCore none urlPattern now = (fallbackPageId urlPattern now, none)
      ∧ generateUniqueElementIdRead ReadResult.err pk e pid now
        = genElemIdCore (some freshRegistry) e pid now
      ∧ generateUniqueElementIdRead (ReadResult.ok none) pk e pid now
        = genElemIdCore (some freshRegistry) e pid now
      ∧ genElemIdCore none e pid now = (fallbackElemId e now, none) := by
  intro pk urlPattern pid e now
  exact ⟨rfl, rfl, rfl, rfl, rfl, rfl⟩

/-- C5: capturing an element with the navigation-trigger flag set (that is,
`captureElement` followed by the temporary `disableCaptureMode`, which sends
`temporaryDisableForNavigation`) persists `pendingNavigation = true` and
`lastNavigationElementId` equal to the just-captured element's ID, and leaves
the durable `captureMode` key unchanged; only a non-temporary toggle-off
writes `captureMode = false`. -/
theorem C5_nav_trigger_persistence (cs : ContentState) (st : LocalStorage) (bg : BgState)
    (urlPattern : String) (e : UpChain) (desc : String) (kpi : Option String)
    (nowIso : String) (now : Nat) (page : PageRecord)
    (h : st.pageData.find? (fun p => p.url_pattern == urlPattern) = some page) :
    ((captureWithNavTrigger cs st bg urlPattern e desc kpi nowIso now).2.1.pendingNavigation = true
     ∧ (captureWithNavTrigger cs st bg urlPattern e desc kpi nowIso now).2.1.lastNavigationElementId
         = some (generateUniqueElementIdS st e page.page_id now).1
     ∧ (captureWithNavTrigger cs st bg urlPattern e desc kpi nowIso now).2.1.captureMode
         = st.captureMode)
    ∧ (∀ (cs2 : ContentState) (st2 : LocalStorage) (bg2 : BgState),
        (disableCaptureMode false cs2 st2 bg2).2.1.captureMode = false)
    ∧ (∀ (cs2 : ContentState) (st2 : LocalStorage) (bg2 : BgState),
        (disableCaptureMode true cs2 st2 bg2).2.1.captureMode = st2.captureMode) := by
  constructor
  · obtain ⟨rr, hframe⟩ := genElemIdS_frame st e page.page_id now
    cases hg : generateUniqueElementIdS st e page.page_id now with
    | mk eid st1 =>
      rw [hg] at hframe
      have hframe2 : st1 = { st with idRegistry := rr } := hframe
      simp only [captureWithNavTrigger, captureElement, h, hg]
      simp [disableCaptureMode, bgOnMessage, hframe2]
  · exact ⟨fun cs2 st2 bg2 => by simp [disableCaptureMode, bgOnMessage],
           fun cs2 st2 bg2 => by simp [disableCaptureMode, bgOnMessage]⟩

/-- C5 witness: a navigation-trigger capture of `#settings-button` on the
dashboard state persists the pending-navigation flag, records the new element
ID, and leaves durable `captureMode` as it was. -/
theorem C5_nav_trigger_persistence_witness :
    (captureWithNavTrigger initialContentState scenarioSt1 idleBg "/dashboard" settingsButton
        "go to settings" none "t2" 2).2.1.pendingNavigation = true
    ∧ (captureWithNavTrigger initialContentState scenarioSt1 idleBg "/dashboard" settingsButton
        "go to settings" none "t2" 2).2.1.lastNavigationElementId
        = some (generateUniqueElementIdS scenarioSt1 settingsButton dashboardPage.page_id 2).1
    ∧ (captureWithNavTrigger initialContentState scenarioSt1 idleBg "/dashboard" settingsButton
        "go to settings" none "t2" 2).2.1.captureMode = scenarioSt1.captureMode :=
  (C5_nav_trigger_persistence initialContentState scenarioSt1 idleBg "/dashboard" settingsButton
    "go to settings" none "t2" 2 dashboardPage (by decide)).1

/-- C6 counterexample: with the resume latch set and `pendingNavigation`
persisted, the load-complete handler (even followed by 5000 ms with no
successful resume delivery) leaves the persisted flag set — it is not cleared
within 5 seconds after the load-complete event. -/
theorem C6_load_complete_counterexample :
    suspendedSt.pendingNavigation = true
    ∧ suspendedBg.shouldResumeCapture = true
    ∧ (storageAfterLoadComplete suspendedBg suspendedSt 5000).pendingNavigation = true := by
  decide

/-- C6 (amended): the background load-complete handler performs no storage
write at all (in particular it never clears the persisted `pendingNavigation`
flag, delivered resume message or not); the 5-second auto-clear is tied to the
popup instead: when the popup opens with the flag set, its `DOMContentLoaded`
handler schedules a `pendingNavigation := false` write 5000 ms later, and
firing that write clears the flag. -/
theorem C6_pending_flag_clearing :
    (∀ (bg : BgState) (st : LocalStorage) (f : Bool),
        (tabsOnUpdatedComplete bg st f).2.1 = st)
    ∧ (∀ (bg : BgState) (st : LocalStorage) (t : Nat),
        (storageAfterLoadComplete bg st t).pendingNavigation = st.pendingNavigation)
    ∧ (∀ st : LocalStorage, st.pendingNavigation = true →
        popupPendingNavSchedule st = [{ delayMs := 5000, pendingNavigationValue := false }]
        ∧ ∀ w ∈ popupPendingNavSchedule st,
            (applyScheduledClear st w).pendingNavigation = false) := by
  refine ⟨?_, ?_, ?_⟩
  · intro bg st f
    by_cases hc : bg.shouldResumeCapture <;> simp [tabsOnUpdatedComplete, hc]
  · intro bg st t
    by_cases hc : bg.shouldResumeCapture <;>
      simp [storageAfterLoadComplete, tabsOnUpdatedComplete, hc]
  · intro st h
    constructor
    · simp [popupPendingNavSchedule, h]
    · intro w hw
      simp [popupPendingNavSchedule, h] at hw
      subst hw
      simp [applyScheduledClear]

/-- C6 witness: on the suspended storage the popup schedules the 5000 ms
clear, and firing it resets the flag. -/
theorem C6_pending_flag_clearing_witness :
    popupPendingNavSchedule suspendedSt = [{ delayMs := 5000, pendingNavigationValue := false }]
    ∧ ∀ w ∈ popupPendingNavSchedule suspendedSt,
        (applyScheduledClear suspendedSt w).pendingNavigation = false :=
  C6_pending_flag_clearing.2.2 suspendedSt (by decide)

/-- C7: every ElementRecord appended by a successful `captureElement` has
`from` equal to `null` or to the singleton
`[{node: <continuity anchor>, action: "click"}]` (never more than one edge),
and afterwards the continuity anchor — both the in-memory
`lastCapturedElementId` and the durable `lastElementId` — equals the newly
captured element's ID. -/
theorem C7_single_anchor_chain (cs : ContentState) (st : LocalStorage) (urlPattern : String)
    (e : UpChain) (desc : String) (kpi : Option String) (nowIso : String)
    (now : Nat) (page : PageRecord)
    (h : st.pageData.find? (fun p => p.url_pattern == urlPattern) = some page) :
    (captureElement cs st urlPattern e desc kpi nowIso now).2.2.isSome = true
    ∧ (∀ r, (captureElement cs st urlPattern e desc kpi nowIso now).2.2 = some r →
        (∀ edges, r.fromEdges = some edges → edges.length ≤ 1)
        ∧ (r.fromEdges = none
            ∨ (jsStrTruthy cs.lastCapturedElementId = true
               ∧ r.fromEdges
                   = some [{ node := cs.lastCapturedElementId.getD "", action := "click" }]))
        ∧ (captureElement cs st urlPattern e desc kpi nowIso now).1.lastCapturedElementId
            = some r.element_id
        ∧ (captureElement cs st urlPattern e desc kpi nowIso now).2.1.lastElementId
            = some r.element_id) := by
  cases hg : generateUniqueElementIdS st e page.page_id now with
  | mk eid st1 =>
    simp only [captureElement, h, hg]
    refine ⟨rfl, ?_⟩
    intro r hr
    obtain rfl := Option.some.inj hr
    refine ⟨?_, ?_, rfl, rfl⟩
    · intro edges hedges
      by_cases ht : jsStrTruthy cs.lastCapturedElementId
      · simp [ht] at hedges
        subst hedges
        simp
      · simp [ht] at hedges
    · by_cases ht : jsStrTruthy cs.lastCapturedElementId
      · right
        exact ⟨ht, by simp [ht]⟩
      · left
        simp [ht]

/-- C7 witness: capturing `#settings-button` on the dashboard state appends a
record. -/
theorem C7_single_anchor_chain_witness :
    (captureElement initialContentState scenarioSt1 "/dashboard" settingsButton
      "go to settings" none "t2" 2).2.2.isSome = true :=
  (C7_single_anchor_chain initialContentState scenarioSt1 "/dashboard" settingsButton
    "go to settings" none "t2" 2 dashboardPage (by decide)).1

/-- C8: `generateRobustSelector` on an element with a non-empty id returns
`#` + id regardless of its classes or other attributes; on an element with no
id, no qualifying `data-*` attributes and no stable class names it falls
through to the ancestor-path selector, which joins at most 3 levels with
`" > "`. -/
theorem C8_selector_priority :
    (∀ e : UpChain, e.node.idAttr ≠ "" → generateRobustSelector e = "#" ++ e.node.idAttr)
    ∧ (∀ e : UpChain, e.node.idAttr = "" → qualifyingDataAttrs e.node = [] →
        (∀ c ∈ e.node.classList, stableClass c = false) →
        generateRobustSelector e = pathSelector e ∧ (pathLevels e 3).length ≤ 3) := by
  constructor
  · intro e hid
    simp [generateRobustSelector, hid]
  · intro e hid hdata hcls
    refine ⟨?_, pathLevels_length_le e 3⟩
    have hstable : e.node.classList.filter stableClass = [] :=
      List.filter_eq_nil_iff.mpr (by intro c hc; simp [hcls c hc])
    by_cases hcn : e.node.classNameStr = ""
    · simp [generateRobustSelector, hid, hdata, hcn]
    · simp [generateRobustSelector, hid, hdata, hcn, hstable]

/-- C8 witness: `#foo` wins for an element with id `foo` and classes; an
element with only the transient classes `active` and `open` falls through to
the ancestor path. -/
theorem C8_selector_priority_witness :
    generateRobustSelector fooElem = "#" ++ fooElem.node.idAttr
    ∧ (generateRobustSelector transientElem = pathSelector transientElem
       ∧ (pathLevels transientElem 3).length ≤ 3) :=
  ⟨C8_selector_priority.1 fooElem (by decide),
   C8_selector_priority.2 transientElem (by decide) (by decide) (by decide)⟩

/-- C9: for every stored platform-to-registry mapping, importing the result of
exporting it (`importIdRegistries(exportAllIdRegistries())`) succeeds and
leaves the stored registries — all pages, elements, and counters — exactly
unchanged. -/
theorem C9_registry_round_trip (st : LocalStorage) (m : RegMap)
    (h : st.idRegistry = some m) :
    importIdRegistries (JsVal.jsObj (exportAllIdRegistries st)) st = (true, st) := by
  cases st with
  | mk cm ed pd le pn ln ir pk =>
    simp only at h
    subst h
    simp [importIdRegistries, exportAllIdRegistries, jsTruthy, jsTypeof]

/-- C9 witness: the round trip is the identity on the freshly installed
storage. -/
theorem C9_registry_round_trip_witness :
    importIdRegistries (JsVal.jsObj (exportAllIdRegistries installedStorage)) installedStorage
      = (true, installedStorage) :=
  C9_registry_round_trip installedStorage [("default", freshRegistry)] rfl

/-- C10: `importIdRegistries` rejects `null`, `undefined`, and every non-object
value, returning `false` with no storage write; for any object input it
returns `true` and wholesale-overwrites the stored registries with no merge. -/
theorem C10_import_validation :
    ∀ st : LocalStorage,
      importIdRegistries JsVal.jsNull st = (false, st)
      ∧ importIdRegistries JsVal.jsUndefined st = (false, st)
      ∧ (∀ v : JsVal, jsTypeof v ≠ "object" → importIdRegistries v st = (false, st))
      ∧ (∀ m : RegMap, importIdRegistries (JsVal.jsObj m) st
          = (true, { st with idRegistry := some m })) := by
  intro st
  refine ⟨rfl, rfl, ?_, fun m => rfl⟩
  intro v hv
  cases v with
  | jsNull => rfl
  | jsUndefined => rfl
  | jsBool b => cases b <;> rfl
  | jsNum n => simp [importIdRegistries, jsTypeof]
  | jsStr s => simp [importIdRegistries, jsTypeof]
  | jsObj m => exact absurd rfl hv

/-- C10 witness: importing the string `"x"` is rejected and writes nothing. -/
theorem C10_import_validation_witness :
    importIdRegistries (JsVal.jsStr "x") installedStorage = (false, installedStorage) :=
  (C10_import_validation installedStorage).2.2.1 (JsVal.jsStr "x") (by decide)

end CaptureExt
